import Mathlib

/-
Verification of the ranking computation engine of the ex-Soviet football
ranking application (src/app.py) against its design specification.

The engine is embedded shallowly:
  * a CSV cell that `pd.to_numeric(errors := coerce)` may turn into NaN is
    modelled as `Option ℚ` (`none` = NaN / missing);
  * float arithmetic is idealised as exact arithmetic, rationals where the
    code computes with decimal constants and `ℝ` where `** -0.95` appears;
  * NaN propagation of numpy floats is modelled explicitly on `Option`
    values (a comparison `x != 0` is true for NaN, arithmetic on NaN
    yields NaN, a negative base under a fractional exponent yields NaN).
-/

namespace ExSoviet

/-! ## Data model: country season records (LeagueRanking.csv rows) -/

/-- One row of LeagueRanking.csv after numeric coercion: the three ordered
season sequences of the three rating sources (7 UEFA seasons, 6 AFC
seasons, 8 FIFA rankings). A `none` cell is a missing or unparseable
value. -/
structure CountrySeasonRecord where
  country_code : String
  uefa : List (Option ℚ)
  afc : List (Option ℚ)
  fifa : List (Option ℚ)
deriving DecidableEq

/-- The `.fillna(0)` coercion applied to every rating column. -/
def fillna (cells : List (Option ℚ)) : List ℚ :=
  cells.map (fun c => c.getD 0)

/-- Value of a single coerced cell (missing goes to 0). -/
def cellVal (c : Option ℚ) : ℚ :=
  c.getD 0

/-- The fixed weight sequence, oldest to newest, from `load_and_calculate_data`. -/
def weights : List ℚ := [0.6, 0.7, 0.8, 0.9, 1.0]

/-- `sum([row[last5[i]] * weights[i] for i in range(5)]) / 5` where
`last5 = cols[-5:]`: the last five values of the sequence, multiplied
elementwise by the weights, summed and divided by the constant 5. -/
def weightedLast5 (vals : List ℚ) : ℚ :=
  (List.zipWith (fun v w => v * w) (vals.drop (vals.length - 5)) weights).sum / 5

/-- Column `total` (UEFA sub-score) of `load_and_calculate_data`. -/
def total (r : CountrySeasonRecord) : ℚ :=
  weightedLast5 (fillna r.uefa)

/-- Column `total2` (AFC sub-score) of `load_and_calculate_data`. -/
def total2 (r : CountrySeasonRecord) : ℚ :=
  weightedLast5 (fillna r.afc)

/-- Column `total3` (FIFA sub-score) of `load_and_calculate_data`. -/
def total3 (r : CountrySeasonRecord) : ℚ :=
  weightedLast5 (fillna r.fifa)

/-- Column `total4`, the nation coefficient:
`((total * 0.3) + (total2 * 0.1) + (total3 * 0.6)) / 100`. -/
def total4 (r : CountrySeasonRecord) : ℚ :=
  (total r * 0.3 + total2 r * 0.1 + total3 r * 0.6) / 100

/-! ## League tier assignment -/

/-- The five outcomes of `get_league_tier` in src/app.py. -/
inductive Tier where
  | premier
  | championship
  | league_one
  | league_two
  | below
deriving DecidableEq

/-- `get_league_tier(position)` from src/app.py: fixed boundaries at
20, 44, 68 and 92. -/
def get_league_tier (position : ℕ) : Tier :=
  if position ≤ 20 then Tier.premier
  else if position ≤ 44 then Tier.championship
  else if position ≤ 68 then Tier.league_one
  else if position ≤ 92 then Tier.league_two
  else Tier.below

/-! ## Claim C1: nation coefficient formula -/

/-- Claim C1: for every country row, each of the three nation sub-scores
equals the sum of that source's 5 most recent seasons multiplied
elementwise by the weights 0.6, 0.7, 0.8, 0.9, 1.0 (oldest to newest)
divided by the constant 5, with missing values coerced to 0 and kept in
the divisor, and the final nation coefficient is
(uefaScore * 0.3 + afcScore * 0.1 + fifaScore * 0.6) / 100. -/
theorem nation_coefficient_formula (r : CountrySeasonRecord)
    (u1 u2 u3 u4 u5 u6 u7 a1 a2 a3 a4 a5 a6 f1 f2 f3 f4 f5 f6 f7 f8 : Option ℚ)
    (hu : r.uefa = [u1, u2, u3, u4, u5, u6, u7])
    (ha : r.afc = [a1, a2, a3, a4, a5, a6])
    (hf : r.fifa = [f1, f2, f3, f4, f5, f6, f7, f8]) :
    total r = (cellVal u3 * 0.6 + cellVal u4 * 0.7 + cellVal u5 * 0.8
               + cellVal u6 * 0.9 + cellVal u7 * 1.0) / 5
    ∧ total2 r = (cellVal a2 * 0.6 + cellVal a3 * 0.7 + cellVal a4 * 0.8
               + cellVal a5 * 0.9 + cellVal a6 * 1.0) / 5
    ∧ total3 r = (cellVal f4 * 0.6 + cellVal f5 * 0.7 + cellVal f6 * 0.8
               + cellVal f7 * 0.9 + cellVal f8 * 1.0) / 5
    ∧ total4 r = (total r * 0.3 + total2 r * 0.1 + total3 r * 0.6) / 100 := by
  refine ⟨?_, ?_, ?_, rfl⟩
  · simp [total, weightedLast5, fillna, hu, cellVal, weights]
    ring
  · simp [total2, weightedLast5, fillna, ha, cellVal, weights]
    ring
  · simp [total3, weightedLast5, fillna, hf, cellVal, weights]
    ring

/-- Example country of the specification: all seven UEFA seasons are 10,
the other sources are all 0. -/
def c1rec : CountrySeasonRecord :=
  { country_code := "UKR"
    uefa := [some 10, some 10, some 10, some 10, some 10, some 10, some 10]
    afc := [some 0, some 0, some 0, some 0, some 0, some 0]
    fifa := [none, none, none, none, none, none, none, none] }

/-- Witness for claim C1 at the specification example country: the
instantiated conclusion together with the evaluated scores
(uefaScore = 8 and final coefficient 0.024). -/
theorem nation_coefficient_formula_w :
    (total c1rec = (cellVal (some 10) * 0.6 + cellVal (some 10) * 0.7
        + cellVal (some 10) * 0.8 + cellVal (some 10) * 0.9 + cellVal (some 10) * 1.0) / 5
      ∧ total2 c1rec = (cellVal (some 0) * 0.6 + cellVal (some 0) * 0.7
        + cellVal (some 0) * 0.8 + cellVal (some 0) * 0.9 + cellVal (some 0) * 1.0) / 5
      ∧ total3 c1rec = (cellVal none * 0.6 + cellVal none * 0.7
        + cellVal none * 0.8 + cellVal none * 0.9 + cellVal none * 1.0) / 5
      ∧ total4 c1rec = (total c1rec * 0.3 + total2 c1rec * 0.1 + total3 c1rec * 0.6) / 100)
    ∧ total c1rec = 8 ∧ total4 c1rec = 0.024 := by
  refine ⟨nation_coefficient_formula c1rec
    (some 10) (some 10) (some 10) (some 10) (some 10) (some 10) (some 10)
    (some 0) (some 0) (some 0) (some 0) (some 0) (some 0)
    none none none none none none none none rfl rfl rfl, ?_, ?_⟩ <;>
    norm_num [total, total2, total3, total4, weightedLast5, fillna, weights, c1rec]

/-! ## Claim C5: league tier boundaries -/

/-- Claim C5: league tier assignment is a pure function of the global rank
position with exact boundaries: positions up to 20 are Tier 1, 21 to 44
Tier 2, 45 to 68 Tier 3, 69 to 92 Tier 4, and any position greater than
92 falls outside the tiered system; positions 20 and 21 are in different
tiers, 92 is the last tiered position and 93 is untiered. -/
theorem league_tier_boundaries (p : ℕ) :
    (get_league_tier p = Tier.premier ↔ p ≤ 20)
    ∧ (get_league_tier p = Tier.championship ↔ 20 < p ∧ p ≤ 44)
    ∧ (get_league_tier p = Tier.league_one ↔ 44 < p ∧ p ≤ 68)
    ∧ (get_league_tier p = Tier.league_two ↔ 68 < p ∧ p ≤ 92)
    ∧ (get_league_tier p = Tier.below ↔ 92 < p)
    ∧ get_league_tier 20 ≠ get_league_tier 21
    ∧ get_league_tier 92 = Tier.league_two
    ∧ get_league_tier 93 = Tier.below := by
  refine ⟨?_, ?_, ?_, ?_, ?_, by decide, by decide, by decide⟩ <;>
    · unfold get_league_tier
      split_ifs <;> simp <;> omega

/-! ## Data model: club season records (ClubCoef.csv rows)

The numeric columns of ClubCoef.csv are coerced with
`pd.to_numeric(errors := coerce)` and, unlike the country table, are NOT
filled with 0, so a cell may be NaN (`none`). Numpy semantics used by
`calculate_row_coefficient`: `NaN != 0` is true, arithmetic involving NaN
yields NaN, and a negative base raised to the fractional power -0.95
yields NaN. -/

/-- One row of ClubCoef.csv after numeric coercion (the `team` column is
kept as its stripped string). -/
structure ClubSeasonRecord where
  country_code : String
  team : String
  team_code : String
  year : Option ℚ
  league_tier : Option ℚ
  league_games : Option ℚ
  league_points : Option ℚ
  group : Option ℚ
  group_games : Option ℚ
  group_points : Option ℚ
  lat : Option ℚ
  lon : Option ℚ
deriving DecidableEq

/-- NaN-propagating float division (the guards of the code keep an actual
zero out of the denominator, so only NaN propagation matters). -/
def nanDiv (a b : Option ℚ) : Option ℚ :=
  match a, b with
  | some x, some y => some (x / y)
  | _, _ => none

/-- Cast a possibly-NaN rational to a possibly-NaN real. -/
def nanCast (a : Option ℚ) : Option ℝ :=
  a.map (fun x => (x : ℝ))

/-- NaN-propagating float multiplication. -/
def nanMul (a b : Option ℝ) : Option ℝ :=
  match a, b with
  | some x, some y => some (x * y)
  | _, _ => none

/-- NaN-propagating float addition. -/
def nanAdd (a b : Option ℝ) : Option ℝ :=
  match a, b with
  | some x, some y => some (x + y)
  | _, _ => none

/-- `x ** -0.95` on a numpy float: NaN for NaN and for a negative base
(the call sites guard the base against 0). -/
noncomputable def nanPow95 (t : Option ℚ) : Option ℝ :=
  match t with
  | none => none
  | some x => if x < 0 then none else some ((x : ℝ) ^ (-0.95 : ℝ))

/-- `calculate_row_coefficient(row)` from src/app.py, translated branch by
branch. `has_group` is `pd.notna` of all three group columns; the Python
comparison `v != 0` is true when `v` is NaN, hence the `Option`-level
disequality with `some 0`. -/
noncomputable def calculate_row_coefficient (r : ClubSeasonRecord) : Option ℝ :=
  if ¬(r.group.isSome ∧ r.group_games.isSome ∧ r.group_points.isSome) then
    if r.league_games ≠ some 0 ∧ r.league_tier ≠ some 0 then
      nanMul (nanCast (nanDiv r.league_points r.league_games)) (nanPow95 r.league_tier)
    else some 0
  else
    if r.group = some 1 ∨ r.group = some 2 then
      (nanAdd
        (if r.league_games ≠ some 0 ∧ r.league_tier ≠ some 0 then
          nanMul (nanCast (nanDiv r.league_points r.league_games)) (nanPow95 r.league_tier)
        else some 0)
        (if r.group_games ≠ some 0 ∧ r.league_tier ≠ some 0 then
          nanMul
            (nanMul (nanCast (nanDiv r.group_points r.group_games)) (nanPow95 r.league_tier))
            (some (if r.group = some 1 then (1 : ℝ) else 0.913))
        else some 0)).map (fun x => x / 2)
    else some 0

/-! ## Specification-side row coefficient

The following definitions transcribe the wording of the specification
(section 4.2) for numeric inputs, to be compared with the translated
code. -/

/-- The tier scaling factor `leagueTier ^ -0.95` of the specification. -/
noncomputable def pow95 (t : ℚ) : ℝ :=
  (t : ℝ) ^ (-0.95 : ℝ)

/-- Specification: `(leaguePoints / leagueGames) * leagueTier ^ -0.95` when
`leagueGames` and `leagueTier` are both nonzero, else 0. -/
noncomputable def leaguePartSpec (t g p : ℚ) : ℝ :=
  if g ≠ 0 ∧ t ≠ 0 then ((p / g : ℚ) : ℝ) * pow95 t else 0

/-- Specification: `(groupPoints / groupGames) * leagueTier ^ -0.95 *
multiplier` with multiplier 1 for group 1 and 0.913 for group 2, and 0
when `groupGames` or `leagueTier` is 0. -/
noncomputable def groupPartSpec (t gv gg gp : ℚ) : ℝ :=
  if gg ≠ 0 ∧ t ≠ 0 then
    ((gp / gg : ℚ) : ℝ) * pow95 t * (if gv = 1 then 1 else 0.913)
  else 0

/-- Specification: the three-way branch on the group data. `grp` is the
group triple (indicator, games, points), absent when there is no
group-phase data. -/
noncomputable def rowCoefficientSpec (t g p : ℚ) (grp : Option (ℚ × ℚ × ℚ)) : ℝ :=
  match grp with
  | none => leaguePartSpec t g p
  | some (gv, gg, gp) =>
    if gv = 1 ∨ gv = 2 then (leaguePartSpec t g p + groupPartSpec t gv gg gp) / 2
    else 0

/-- Helper: when at least one group column is NaN, the translated code
computes exactly the league part of the specification (league columns
numeric, tier nonnegative as the data model demands). -/
lemma rc_eq_league_of_not_has_group (r : ClubSeasonRecord) (t g p : ℚ)
    (ht : r.league_tier = some t) (hg : r.league_games = some g)
    (hp : r.league_points = some p) (h0 : 0 ≤ t)
    (hng : ¬(r.group.isSome ∧ r.group_games.isSome ∧ r.group_points.isSome)) :
    calculate_row_coefficient r = some (leaguePartSpec t g p) := by
  rw [calculate_row_coefficient, if_pos hng, leaguePartSpec]
  rw [ht, hg, hp]
  by_cases hc : g ≠ 0 ∧ t ≠ 0
  · rw [if_pos (by simpa using hc), if_pos hc]
    rw [nanDiv, nanCast, nanPow95]
    rw [if_neg (not_lt.mpr h0)]
    rfl
  · rw [if_neg (by simpa using hc), if_neg hc]

/-- Helper: when all three group columns are numeric, the translated code
computes exactly the group branch of the specification. -/
lemma rc_eq_spec_of_group (r : ClubSeasonRecord) (t g p gv gg gp : ℚ)
    (ht : r.league_tier = some t) (hg : r.league_games = some g)
    (hp : r.league_points = some p)
    (hgv : r.group = some gv) (hgg : r.group_games = some gg)
    (hgp : r.group_points = some gp) (h0 : 0 ≤ t) :
    calculate_row_coefficient r = some (rowCoefficientSpec t g p (some (gv, gg, gp))) := by
  rw [calculate_row_coefficient,
    if_neg (by simp [hgv, hgg, hgp] : ¬¬(r.group.isSome ∧ r.group_games.isSome ∧ r.group_points.isSome))]
  rw [rowCoefficientSpec]
  rw [ht, hg, hp, hgv, hgg, hgp]
  by_cases hgrp : gv = 1 ∨ gv = 2
  · rw [if_pos (by simpa using hgrp), if_pos hgrp]
    have hleague : (if (some g ≠ some 0 ∧ some t ≠ some 0) then
        nanMul (nanCast (nanDiv (some p) (some g))) (nanPow95 (some t))
      else some 0) = some (leaguePartSpec t g p) := by
      rw [leaguePartSpec]
      by_cases hc : g ≠ 0 ∧ t ≠ 0
      · rw [if_pos (by simpa using hc), if_pos hc]
        rw [nanDiv, nanCast, nanPow95, if_neg (not_lt.mpr h0)]
        rfl
      · rw [if_neg (by simpa using hc), if_neg hc]
    have hgroup : (if (some gg ≠ some 0 ∧ some t ≠ some 0) then
        nanMul (nanMul (nanCast (nanDiv (some gp) (some gg))) (nanPow95 (some t)))
          (some (if some gv = some 1 then (1 : ℝ) else 0.913))
      else some 0) = some (groupPartSpec t gv gg gp) := by
      rw [groupPartSpec]
      by_cases hc : gg ≠ 0 ∧ t ≠ 0
      · rw [if_pos (by simpa using hc), if_pos hc]
        rw [nanDiv, nanCast, nanPow95, if_neg (not_lt.mpr h0)]
        simp [nanMul, pow95]
      · rw [if_neg (by simpa using hc), if_neg hc]
    rw [hleague, hgroup]
    simp [nanAdd]
  · rw [if_neg (by simpa using hgrp), if_neg hgrp]

/-! ## Claim C2: per-record coefficient -/

/-- Claim C2: for every club season record with numeric league columns
(tier nonnegative, as the data model requires a positive integer tier),
the per-record coefficient follows the three-way branch of the
specification: with no group-phase data it is the guarded league formula;
with full group-phase data and group 1 or 2 it is the mean of the league
part and the multiplier-scaled group part; with full group-phase data and
any other group value it is 0. -/
theorem row_coefficient_three_way (r : ClubSeasonRecord) (t g p : ℚ)
    (ht : r.league_tier = some t) (hg : r.league_games = some g)
    (hp : r.league_points = some p) (h0 : 0 ≤ t) :
    (r.group = none → r.group_games = none → r.group_points = none →
      calculate_row_coefficient r = some (rowCoefficientSpec t g p none))
    ∧ (∀ gv gg gp : ℚ, r.group = some gv → r.group_games = some gg →
        r.group_points = some gp →
      calculate_row_coefficient r = some (rowCoefficientSpec t g p (some (gv, gg, gp)))) := by
  constructor
  · intro h1 h2 h3
    exact rc_eq_league_of_not_has_group r t g p ht hg hp h0 (by simp [h1, h2, h3])
  · intro gv gg gp h1 h2 h3
    exact rc_eq_spec_of_group r t g p gv gg gp ht hg hp h1 h2 h3 h0

/-- Example club season of the specification: tier 1, 30 league games, 60
league points, no group phase. -/
def c2rec : ClubSeasonRecord :=
  { country_code := "UKR", team := "Shakhtar", team_code := "S1"
    year := some 2024, league_tier := some 1, league_games := some 30
    league_points := some 60, group := none, group_games := none
    group_points := none, lat := none, lon := none }

/-- Witness for claim C2 at the specification example: the no-group branch
applies and evaluates to 60 / 30 * 1 ^ -0.95 = 2. -/
theorem row_coefficient_three_way_w :
    calculate_row_coefficient c2rec = some (rowCoefficientSpec 1 30 60 none)
    ∧ rowCoefficientSpec 1 30 60 none = 2 := by
  constructor
  · exact (row_coefficient_three_way c2rec 1 30 60 rfl rfl rfl (by norm_num)).1 rfl rfl rfl
  · rw [rowCoefficientSpec, leaguePartSpec, if_pos (by norm_num), pow95]
    norm_num [Real.one_rpow]

/-! ## Claim C6: incomplete group-phase data

The code treats a record whose three group columns are not all present as
having no group phase (`has_group` is a conjunction of `pd.notna`), so it
falls into the league-only branch, whose value is in general NOT 0. -/

/-- Record with only the group indicator present (games and points of the
group phase missing): tier 1, 30 league games, 60 league points. -/
def c6rec : ClubSeasonRecord :=
  { country_code := "RUS", team := "Zenit", team_code := "Z1"
    year := some 2023, league_tier := some 1, league_games := some 30
    league_points := some 60, group := some 1, group_games := none
    group_points := none, lat := none, lon := none }

/-- Counterexample to claim C6: a record with some but not all of the
three group-phase fields present does NOT get row coefficient 0: the code
takes the no-group branch and returns the league formula, here
60 / 30 * 1 ^ -0.95 = 2. -/
theorem incomplete_group_not_zero :
    calculate_row_coefficient c6rec = some 2 ∧ (2 : ℝ) ≠ 0 := by
  constructor
  · rw [rc_eq_league_of_not_has_group c6rec 1 30 60 rfl rfl rfl (by norm_num) (by simp [c6rec])]
    rw [leaguePartSpec, if_pos (by norm_num), pow95]
    norm_num [Real.one_rpow]
  · norm_num

/-- Claim C6 amended: a record in which some but not all of the three
group-phase fields are present is treated as if it had no group-phase
data: its row coefficient is the guarded league-only formula (which is 0
only when leagueGames or leagueTier is 0). -/
theorem incomplete_group_league_only (r : ClubSeasonRecord) (t g p : ℚ)
    (ht : r.league_tier = some t) (hg : r.league_games = some g)
    (hp : r.league_points = some p) (h0 : 0 ≤ t)
    (_hsome : r.group.isSome ∨ r.group_games.isSome ∨ r.group_points.isSome)
    (hnotall : ¬(r.group.isSome ∧ r.group_games.isSome ∧ r.group_points.isSome)) :
    calculate_row_coefficient r = some (rowCoefficientSpec t g p none) :=
  rc_eq_league_of_not_has_group r t g p ht hg hp h0 hnotall

/-- Witness for the amended claim C6 at the concrete incomplete record:
the group indicator is present, the group games and points are not. -/
theorem incomplete_group_league_only_w :
    calculate_row_coefficient c6rec = some (rowCoefficientSpec 1 30 60 none) :=
  incomplete_group_league_only c6rec 1 30 60 rfl rfl rfl (by norm_num)
    (Or.inl (by simp [c6rec])) (by simp [c6rec])

/-! ## Claim C8: safety of the row coefficient -/

/-- Helper: the league part of the specification is nonnegative for
nonnegative points and games and positive tier. -/
lemma leaguePartSpec_nonneg (t g p : ℚ) (ht : 0 < t) (hp : 0 ≤ p) (hg : 0 ≤ g) :
    0 ≤ leaguePartSpec t g p := by
  rw [leaguePartSpec]
  split_ifs with hc
  · have hgpos : 0 < g := lt_of_le_of_ne hg (Ne.symm hc.1)
    apply mul_nonneg
    · exact_mod_cast div_nonneg hp hgpos.le
    · exact Real.rpow_nonneg (by exact_mod_cast ht.le) _
  · exact le_refl 0

/-- Helper: the group part of the specification is nonnegative for
nonnegative points and games and positive tier. -/
lemma groupPartSpec_nonneg (t gv gg gp : ℚ) (ht : 0 < t) (hgp : 0 ≤ gp) (hgg : 0 ≤ gg) :
    0 ≤ groupPartSpec t gv gg gp := by
  rw [groupPartSpec]
  by_cases hc : gg ≠ 0 ∧ t ≠ 0
  · rw [if_pos hc]
    have hggpos : 0 < gg := lt_of_le_of_ne hgg (Ne.symm hc.1)
    have h1 : (0 : ℝ) ≤ ((gp / gg : ℚ) : ℝ) := by
      exact_mod_cast div_nonneg hgp hggpos.le
    have h2 : (0 : ℝ) ≤ pow95 t := Real.rpow_nonneg (by exact_mod_cast ht.le) _
    have h3 : (0 : ℝ) ≤ (if gv = 1 then (1 : ℝ) else 0.913) := by
      split_ifs <;> norm_num
    exact mul_nonneg (mul_nonneg h1 h2) h3
  · rw [if_neg hc]

/-- Claim C8: the row coefficient computation never fails: a zero league
games count, zero group games count, or zero league tier leads to an
explicit 0 result (never a division or domain error), and for every
record with numeric fields, nonnegative points and games and positive
tier, the row coefficient is a value greater than or equal to 0. -/
theorem row_coefficient_safe (r : ClubSeasonRecord) (t g p : ℚ)
    (ht : r.league_tier = some t) (hg : r.league_games = some g)
    (hp : r.league_points = some p) (h0 : 0 ≤ t) :
    (r.group = none → r.group_games = none → r.group_points = none →
      (g = 0 ∨ t = 0) → calculate_row_coefficient r = some 0)
    ∧ (∀ gv gg gp : ℚ, r.group = some gv → r.group_games = some gg →
        r.group_points = some gp → (g = 0 ∨ t = 0) → (gg = 0 ∨ t = 0) →
        calculate_row_coefficient r = some 0)
    ∧ (0 < t → 0 ≤ p → 0 ≤ g →
        ((r.group = none ∧ r.group_games = none ∧ r.group_points = none) ∨
          (∃ gv gg gp : ℚ, r.group = some gv ∧ r.group_games = some gg ∧
            r.group_points = some gp ∧ 0 ≤ gg ∧ 0 ≤ gp)) →
        ∃ v : ℝ, calculate_row_coefficient r = some v ∧ 0 ≤ v) := by
  refine ⟨?_, ?_, ?_⟩
  · intro h1 h2 h3 hzero
    rw [rc_eq_league_of_not_has_group r t g p ht hg hp h0 (by simp [h1, h2, h3])]
    rw [leaguePartSpec, if_neg (by tauto)]
  · intro gv gg gp h1 h2 h3 hzero hgzero
    rw [rc_eq_spec_of_group r t g p gv gg gp ht hg hp h1 h2 h3 h0]
    rw [rowCoefficientSpec]
    split_ifs with hgrp
    · rw [leaguePartSpec, if_neg (by tauto), groupPartSpec, if_neg (by tauto)]
      norm_num
    · rfl
  · intro htpos hppos hgpos hcase
    rcases hcase with ⟨h1, h2, h3⟩ | ⟨gv, gg, gp, h1, h2, h3, hgg, hgp⟩
    · refine ⟨leaguePartSpec t g p,
        rc_eq_league_of_not_has_group r t g p ht hg hp h0 (by simp [h1, h2, h3]),
        leaguePartSpec_nonneg t g p htpos hppos hgpos⟩
    · refine ⟨rowCoefficientSpec t g p (some (gv, gg, gp)),
        rc_eq_spec_of_group r t g p gv gg gp ht hg hp h1 h2 h3 h0, ?_⟩
      rw [rowCoefficientSpec]
      split_ifs with hgrp
      · have := leaguePartSpec_nonneg t g p htpos hppos hgpos
        have := groupPartSpec_nonneg t gv gg gp htpos hgp hgg
        positivity
      · exact le_refl 0

/-- Record with zero league games count and no group phase. -/
def c8rec : ClubSeasonRecord :=
  { country_code := "KAZ", team := "Astana", team_code := "A1"
    year := some 2022, league_tier := some 2, league_games := some 0
    league_points := some 7, group := none, group_games := none
    group_points := none, lat := none, lon := none }

/-- Witness for claim C8 at a record with zero league games: the guard
substitutes an explicit 0. -/
theorem row_coefficient_safe_w :
    calculate_row_coefficient c8rec = some 0 :=
  (row_coefficient_safe c8rec 2 0 7 rfl rfl rfl (by norm_num)).1
    rfl rfl rfl (Or.inl rfl)

/-! ## Club aggregation pipeline (`calculate_club_coefficients`) -/

/-- `league_df[league_df[country_code] == code][total4].values[0] if len > 0
else 0`: the nation coefficient of the first matching country row, with 0
for an unknown country code. -/
def nationCoef (league : List CountrySeasonRecord) (code : String) : ℚ :=
  match league.find? (fun cr => cr.country_code == code) with
  | some cr => total4 cr
  | none => 0

/-- The rows of one `groupby([country_code, team_code])` group, in input
order. -/
def groupOf (rows : List ClubSeasonRecord) (key : String × String) :
    List ClubSeasonRecord :=
  rows.filter (fun r => r.country_code == key.1 && r.team_code == key.2)

/-- The distinct (country code, team code) pairs occurring in the table
(the set of groupby keys; the final ranking is re-sorted, so the
enumeration order of the keys is irrelevant to every claim below). -/
def groupKeys (rows : List ClubSeasonRecord) : List (String × String) :=
  (rows.map (fun r => (r.country_code, r.team_code))).dedup

/-- The year used for ordering (only applied to rows whose year is
present). -/
def yearVal (r : ClubSeasonRecord) : ℚ :=
  r.year.getD 0

/-- `group.nlargest(5, year)`: rows with NaN year are dropped, the rest
are sorted by year descending with ties kept in input order (stable), and
the first 5 are taken. -/
def top_5 (g : List ClubSeasonRecord) : List ClubSeasonRecord :=
  ((g.filter (fun r => r.year.isSome)).insertionSort
    (fun a b => yearVal b ≤ yearVal a)).take 5

/-- `row_coefficient.fillna(0)`: a NaN row coefficient counts as 0. -/
noncomputable def coefD0 (r : ClubSeasonRecord) : ℝ :=
  (calculate_row_coefficient r).getD 0

/-- One entry of `club_results`. -/
structure ClubAggregate where
  country_code : String
  team : String
  team_code : String
  point_avg : ℝ
  avg_coefficient : ℝ
  nation_coef : ℚ
  lat : Option ℚ
  lon : Option ℚ

/-- The body of the `for (country_code, team_code), group in groupby`
loop: `none` when the group is skipped (`len(top_5) > 0` fails, which
happens exactly when every row of the group has a NaN year). The average
is `top_5[row_coefficient].fillna(0).mean()`; the coordinates are the
first non-null latitude and the first non-null longitude of the group,
each taken independently over the group in input order. -/
noncomputable def mkAggregate (league : List CountrySeasonRecord)
    (key : String × String) (g : List ClubSeasonRecord) : Option ClubAggregate :=
  if 0 < (top_5 g).length then
    some
      { country_code := key.1
        team := match g.head? with | some r0 => r0.team | none => ""
        team_code := key.2
        point_avg := (((top_5 g).map coefD0).sum / ((top_5 g).length : ℝ))
          * ((nationCoef league key.1 : ℚ) : ℝ)
        avg_coefficient := ((top_5 g).map coefD0).sum / ((top_5 g).length : ℝ)
        nation_coef := nationCoef league key.1
        lat := (g.filterMap (fun r => r.lat)).head?
        lon := (g.filterMap (fun r => r.lon)).head? }
  else none

/-- `club_results`: one aggregate per groupby key that passes the
`len(top_5) > 0` test. -/
noncomputable def club_results (league : List CountrySeasonRecord)
    (rows : List ClubSeasonRecord) : List ClubAggregate :=
  (groupKeys rows).filterMap (fun k => mkAggregate league k (groupOf rows k))

/-- `club_results_df.sort_values(point_avg, ascending := False)`: the
aggregates sorted by point average, descending. -/
noncomputable def ranked (league : List CountrySeasonRecord)
    (rows : List ClubSeasonRecord) : List ClubAggregate :=
  (club_results league rows).insertionSort (fun a b => b.point_avg ≤ a.point_avg)

/-- `overall_position = range(1, len + 1)`: the 1-based rank attached to
each aggregate of the sorted list. -/
noncomputable def rankedPositions (league : List CountrySeasonRecord)
    (rows : List ClubSeasonRecord) : List (ℕ × ClubAggregate) :=
  (ranked league rows).enum.map (fun p => (p.1 + 1, p.2))

/-! ### Helper lemmas about the pipeline -/

/-- Helper: every row contributes its key to the groupby key list. -/
lemma mem_groupKeys (rows : List ClubSeasonRecord) (r : ClubSeasonRecord)
    (h : r ∈ rows) : (r.country_code, r.team_code) ∈ groupKeys rows :=
  List.mem_dedup.mpr (List.mem_map_of_mem _ h)

/-- Helper: a row belongs to the group of its own key. -/
lemma self_mem_groupOf (rows : List ClubSeasonRecord) (r : ClubSeasonRecord)
    (h : r ∈ rows) : r ∈ groupOf rows (r.country_code, r.team_code) :=
  List.mem_filter.mpr ⟨h, by simp⟩

/-- Helper: a member of a group is a row whose key is the group key. -/
lemma of_mem_groupOf {rows : List ClubSeasonRecord} {key : String × String}
    {r : ClubSeasonRecord} (h : r ∈ groupOf rows key) :
    r ∈ rows ∧ r.country_code = key.1 ∧ r.team_code = key.2 := by
  have h2 := List.mem_filter.mp h
  have h3 := h2.2
  simp only [Bool.and_eq_true, beq_iff_eq] at h3
  exact ⟨h2.1, h3.1, h3.2⟩

/-- Helper: when every row of a group has a year, the top-5 selection of a
group with at most 5 rows is a permutation of the whole group. -/
lemma top_5_perm (g : List ClubSeasonRecord)
    (hy : ∀ r ∈ g, r.year.isSome) (hlen : g.length ≤ 5) :
    (top_5 g).Perm g := by
  rw [top_5, List.filter_eq_self.mpr (by simpa using hy)]
  rw [List.take_of_length_le]
  · exact List.perm_insertionSort _ g
  · rw [(List.perm_insertionSort _ g).length_eq]
    exact hlen

/-- Helper: a group containing a row with a present year passes the
`len(top_5) > 0` test. -/
lemma top_5_length_pos (g : List ClubSeasonRecord) (r : ClubSeasonRecord)
    (hr : r ∈ g) (hy : r.year.isSome) : 0 < (top_5 g).length := by
  rw [top_5, List.length_take, (List.perm_insertionSort _ _).length_eq]
  have : r ∈ g.filter (fun x => x.year.isSome) := List.mem_filter.mpr ⟨hr, hy⟩
  have hpos : 0 < (g.filter (fun x => x.year.isSome)).length :=
    List.length_pos.mpr (fun hnil => by simp [hnil] at this)
  omega

/-- Helper: the aggregate produced for a groupby key that passes the
`len(top_5) > 0` test, with all its fields. -/
lemma mem_club_results (league : List CountrySeasonRecord)
    (rows : List ClubSeasonRecord) (key : String × String)
    (hk : key ∈ groupKeys rows)
    (hpos : 0 < (top_5 (groupOf rows key)).length) :
    ∃ a ∈ club_results league rows,
      a.country_code = key.1 ∧ a.team_code = key.2 ∧
      a.nation_coef = nationCoef league key.1 ∧
      a.avg_coefficient = ((top_5 (groupOf rows key)).map coefD0).sum
        / ((top_5 (groupOf rows key)).length : ℝ) ∧
      a.point_avg = a.avg_coefficient * ((a.nation_coef : ℚ) : ℝ) ∧
      a.lat = ((groupOf rows key).filterMap (fun r => r.lat)).head? ∧
      a.lon = ((groupOf rows key).filterMap (fun r => r.lon)).head? := by
  have hmk : mkAggregate league key (groupOf rows key) = some
      { country_code := key.1
        team := match (groupOf rows key).head? with | some r0 => r0.team | none => ""
        team_code := key.2
        point_avg := (((top_5 (groupOf rows key)).map coefD0).sum
            / ((top_5 (groupOf rows key)).length : ℝ))
          * ((nationCoef league key.1 : ℚ) : ℝ)
        avg_coefficient := ((top_5 (groupOf rows key)).map coefD0).sum
          / ((top_5 (groupOf rows key)).length : ℝ)
        nation_coef := nationCoef league key.1
        lat := ((groupOf rows key).filterMap (fun r => r.lat)).head?
        lon := ((groupOf rows key).filterMap (fun r => r.lon)).head? } := by
    rw [mkAggregate, if_pos hpos]
  exact ⟨_, List.mem_filterMap.mpr ⟨key, hk, hmk⟩, rfl, rfl, rfl, rfl, rfl, rfl, rfl⟩

/-! ## Claim C3: club aggregation round trip -/

/-- Claim C3: the final club coefficient is obtained by grouping season
records by (country code, team code), selecting the 5 most recent records,
averaging their row coefficients (a NaN coefficient counting as 0) and
multiplying by the nation coefficient of the club country; in particular,
for a club with exactly 5 season records the point average equals the mean
of the 5 row coefficients times the nation coefficient. -/
theorem club_five_season_round_trip (league : List CountrySeasonRecord)
    (rows : List ClubSeasonRecord) (c tm : String)
    (h5 : (groupOf rows (c, tm)).length = 5)
    (hy : ∀ r ∈ groupOf rows (c, tm), r.year.isSome) :
    ∃ a ∈ club_results league rows, a.country_code = c ∧ a.team_code = tm ∧
      a.nation_coef = nationCoef league c ∧
      a.point_avg = (((groupOf rows (c, tm)).map coefD0).sum / 5)
        * ((nationCoef league c : ℚ) : ℝ) := by
  obtain ⟨r, hr⟩ := List.exists_mem_of_length_pos
    (show 0 < (groupOf rows (c, tm)).length by omega)
  obtain ⟨hrr, hrc, hrt⟩ := of_mem_groupOf hr
  have hk : (c, tm) ∈ groupKeys rows := by
    have := mem_groupKeys rows r hrr
    rwa [hrc, hrt] at this
  have hperm : (top_5 (groupOf rows (c, tm))).Perm (groupOf rows (c, tm)) :=
    top_5_perm _ hy (by omega)
  have hpos : 0 < (top_5 (groupOf rows (c, tm))).length := by
    rw [hperm.length_eq]; omega
  obtain ⟨a, ha, h1, h2, h3, h4, h5', h6, h7⟩ :=
    mem_club_results league rows (c, tm) hk hpos
  refine ⟨a, ha, h1, h2, h3, ?_⟩
  rw [h5', h4, h3]
  rw [(hperm.map coefD0).sum_eq, hperm.length_eq, h5]
  norm_num

/-- Five season records of one club (country A, team code T, years 1 to
5). -/
def mkRow (yr : ℚ) : ClubSeasonRecord :=
  { country_code := "A", team := "Alpha", team_code := "T", year := some yr
    league_tier := some 1, league_games := some 1, league_points := some 1
    group := none, group_games := none, group_points := none
    lat := none, lon := none }

/-- The five-season club table used as concrete input. -/
def c3rows : List ClubSeasonRecord :=
  [mkRow 1, mkRow 2, mkRow 3, mkRow 4, mkRow 5]

/-- Witness for claim C3 at a concrete club with exactly 5 season
records. -/
theorem club_five_season_round_trip_w :
    ∃ a ∈ club_results [] c3rows, a.country_code = "A" ∧ a.team_code = "T" ∧
      a.nation_coef = nationCoef [] "A" ∧
      a.point_avg = (((groupOf c3rows ("A", "T")).map coefD0).sum / 5)
        * ((nationCoef [] "A" : ℚ) : ℝ) :=
  club_five_season_round_trip [] c3rows "A" "T" (by decide) (by decide)

/-! ## Claim C10: clubs with fewer than 5 season records -/

/-- Claim C10: a club with fewer than 5 season records (but at least one)
still receives an aggregate, and its average coefficient divides by the
number of records it actually has, not by 5 — missing seasons are not
padded with zeros. -/
theorem club_fewer_seasons_mean (league : List CountrySeasonRecord)
    (rows : List ClubSeasonRecord) (c tm : String)
    (hpos : 0 < (groupOf rows (c, tm)).length)
    (hlt : (groupOf rows (c, tm)).length < 5)
    (hy : ∀ r ∈ groupOf rows (c, tm), r.year.isSome) :
    ∃ a ∈ club_results league rows, a.country_code = c ∧ a.team_code = tm ∧
      a.avg_coefficient = ((groupOf rows (c, tm)).map coefD0).sum
        / (((groupOf rows (c, tm)).length : ℕ) : ℝ) := by
  obtain ⟨r, hr⟩ := List.exists_mem_of_length_pos hpos
  obtain ⟨hrr, hrc, hrt⟩ := of_mem_groupOf hr
  have hk : (c, tm) ∈ groupKeys rows := by
    have := mem_groupKeys rows r hrr
    rwa [hrc, hrt] at this
  have hperm : (top_5 (groupOf rows (c, tm))).Perm (groupOf rows (c, tm)) :=
    top_5_perm _ hy (by omega)
  have htpos : 0 < (top_5 (groupOf rows (c, tm))).length := by
    rw [hperm.length_eq]; omega
  obtain ⟨a, ha, h1, h2, h3, h4, h5', h6, h7⟩ :=
    mem_club_results league rows (c, tm) hk htpos
  refine ⟨a, ha, h1, h2, ?_⟩
  rw [h4, (hperm.map coefD0).sum_eq, hperm.length_eq]

/-- The two-season club table used as concrete input. -/
def c10rows : List ClubSeasonRecord :=
  [mkRow 1, mkRow 2]

/-- Witness for claim C10 at a concrete club with 2 season records. -/
theorem club_fewer_seasons_mean_w :
    ∃ a ∈ club_results [] c10rows, a.country_code = "A" ∧ a.team_code = "T" ∧
      a.avg_coefficient = ((groupOf c10rows ("A", "T")).map coefD0).sum
        / (((groupOf c10rows ("A", "T")).length : ℕ) : ℝ) :=
  club_fewer_seasons_mean [] c10rows "A" "T" (by decide) (by decide) (by decide)

/-! ## Claim C7: unknown country code -/

/-- Claim C7: a club whose country code has no row in the nation table
gets nation coefficient 0, still appears in the results (it is not
dropped), and its point average is therefore 0. -/
theorem unknown_country_still_ranked (league : List CountrySeasonRecord)
    (rows : List ClubSeasonRecord) (r0 : ClubSeasonRecord)
    (hr : r0 ∈ rows) (hy : r0.year.isSome)
    (hunknown : ∀ cr ∈ league, cr.country_code ≠ r0.country_code) :
    ∃ a ∈ club_results league rows, a.country_code = r0.country_code ∧
      a.team_code = r0.team_code ∧ a.nation_coef = 0 ∧ a.point_avg = 0 := by
  have hk := mem_groupKeys rows r0 hr
  have hpos := top_5_length_pos _ r0 (self_mem_groupOf rows r0 hr) hy
  obtain ⟨a, ha, h1, h2, h3, h4, h5', h6, h7⟩ :=
    mem_club_results league rows _ hk hpos
  have hnc : nationCoef league r0.country_code = 0 := by
    rw [nationCoef]
    have hfind : league.find? (fun cr => cr.country_code == r0.country_code) = none :=
      List.find?_eq_none.mpr (fun cr hcr => by simpa using hunknown cr hcr)
    rw [hfind]
  have hzero : a.nation_coef = 0 := by rw [h3]; exact hnc
  refine ⟨a, ha, h1, h2, hzero, ?_⟩
  rw [h5', hzero]
  norm_num

/-- Witness for claim C7: the nation table knows only UKR, the club row
is from country A. -/
theorem unknown_country_still_ranked_w :
    ∃ a ∈ club_results [c1rec] [mkRow 1],
      a.country_code = (mkRow 1).country_code ∧
      a.team_code = (mkRow 1).team_code ∧
      a.nation_coef = 0 ∧ a.point_avg = 0 :=
  unknown_country_still_ranked [c1rec] [mkRow 1] (mkRow 1)
    (by decide) (by decide) (by decide)

/-! ## Claim C9: representative coordinates -/

/-- A season record with only a latitude. -/
def r9a : ClubSeasonRecord :=
  { country_code := "A", team := "Niva", team_code := "N1", year := some 1
    league_tier := some 1, league_games := some 1, league_points := some 1
    group := none, group_games := none, group_points := none
    lat := some 10, lon := none }

/-- A later season record of the same club with both coordinates. -/
def r9b : ClubSeasonRecord :=
  { country_code := "A", team := "Niva", team_code := "N1", year := some 2
    league_tier := some 1, league_games := some 1, league_points := some 1
    group := none, group_games := none, group_points := none
    lat := some 20, lon := some 30 }

/-- Counterexample to claim C9: the aggregate of this club carries
latitude 10 (from the first record) and longitude 30 (from the second),
a combination that is the coordinate pair of no record of the group —
latitude and longitude are selected independently, not together as a
pair. -/
theorem coordinates_not_taken_as_pair :
    ∃ a ∈ club_results [] [r9a, r9b],
      a.lat = some 10 ∧ a.lon = some 30 ∧
      ∀ r ∈ [r9a, r9b], ¬(r.lat = a.lat ∧ r.lon = a.lon) := by
  obtain ⟨a, ha, h1, h2, h3, h4, h5', h6, h7⟩ :=
    mem_club_results [] [r9a, r9b] ("A", "N1") (by decide) (by decide)
  have hlat : a.lat = some 10 := by rw [h6]; decide
  have hlon : a.lon = some 30 := by rw [h7]; decide
  refine ⟨a, ha, hlat, hlon, ?_⟩
  intro r hrr
  rw [hlat, hlon]
  fin_cases hrr <;> decide

/-- Claim C9 amended: for every club group, the latitude retained on the
aggregate is the first non-missing latitude of the group and the
longitude is the first non-missing longitude, each selected independently
in input order (possibly from different records). -/
theorem coordinates_first_non_missing (league : List CountrySeasonRecord)
    (rows : List ClubSeasonRecord) (c tm : String)
    (hk : (c, tm) ∈ groupKeys rows)
    (hpos : 0 < (top_5 (groupOf rows (c, tm))).length) :
    ∃ a ∈ club_results league rows, a.country_code = c ∧ a.team_code = tm ∧
      a.lat = ((groupOf rows (c, tm)).filterMap (fun r => r.lat)).head? ∧
      a.lon = ((groupOf rows (c, tm)).filterMap (fun r => r.lon)).head? := by
  obtain ⟨a, ha, h1, h2, h3, h4, h5', h6, h7⟩ :=
    mem_club_results league rows (c, tm) hk hpos
  exact ⟨a, ha, h1, h2, h6, h7⟩

/-- Witness for the amended claim C9 at the two-record club. -/
theorem coordinates_first_non_missing_w :
    ∃ a ∈ club_results [] [r9a, r9b], a.country_code = "A" ∧ a.team_code = "N1" ∧
      a.lat = ((groupOf [r9a, r9b] ("A", "N1")).filterMap (fun r => r.lat)).head? ∧
      a.lon = ((groupOf [r9a, r9b] ("A", "N1")).filterMap (fun r => r.lon)).head? :=
  coordinates_first_non_missing [] [r9a, r9b] "A" "N1" (by decide) (by decide)

/-! ## Claim C4: global ranking order and positions -/

instance : IsTotal ClubAggregate (fun a b => b.point_avg ≤ a.point_avg) :=
  ⟨fun a b => le_total b.point_avg a.point_avg⟩

instance : IsTrans ClubAggregate (fun a b => b.point_avg ≤ a.point_avg) :=
  ⟨fun _ _ _ h1 h2 => le_trans h2 h1⟩

/-- Helper: sorting does not change the number of clubs. -/
lemma ranked_length (league : List CountrySeasonRecord)
    (rows : List ClubSeasonRecord) :
    (ranked league rows).length = (club_results league rows).length :=
  (List.perm_insertionSort _ _).length_eq

/-- Claim C4: the club ranking is sorted consistently with descending
point average (so a club with a strictly greater point average stands
strictly earlier, hence gets a strictly smaller overall position), and
the assigned overall positions are exactly 1..N over the N clubs, with no
gaps or duplicates. -/
theorem ranking_sorted_positions (league : List CountrySeasonRecord)
    (rows : List ClubSeasonRecord) :
    List.Sorted (fun a b : ClubAggregate => b.point_avg ≤ a.point_avg)
      (ranked league rows)
    ∧ (rankedPositions league rows).map Prod.fst
      = List.range' 1 (club_results league rows).length := by
  constructor
  · exact List.sorted_insertionSort _ _
  · rw [rankedPositions, List.map_map]
    have h1 : (Prod.fst ∘ fun p : ℕ × ClubAggregate => (p.1 + 1, p.2))
        = ((fun n => 1 + n) ∘ Prod.fst) := by
      funext p
      simp [Nat.add_comm]
    rw [h1, ← List.map_map, List.enum_map_fst, ranked_length,
      ← List.range'_eq_map_range]

end ExSoviet
